import Mathlib

/-!
Verification of the Hyperdrive crowdfunding platform.

Part 1 models the Funding Contract State Machine (Settlement Engine +
Ledger Store).  Its on-chain PyTeal source is not part of the repository
snapshot, so these definitions are modelled from the specification's
description of the engine (section 4.1 of the design document), and the
theorems about them are read against that model.

Part 2 embeds the client-side code that is present in the repository:
the wallet bridge (frontend/src/bridge.ts), the main wallet helper
(backend/static/js/wallet.js variants) and the wallet-connect dialog,
as effect-trace functions.
-/

namespace Hyperdrive

/-- Modelled from the spec: contributor / creator / admin identities are
opaque addresses. -/
abbrev Addr := String

/-- Modelled from the spec: the per-contributor durable record (the "box"),
one per contributor address. -/
structure ContributionRecord where
  amountContributed : Nat
  tokensClaimed : Bool
  refunded : Bool
  deriving DecidableEq, Repr

/-- Modelled from the spec: the Ledger Store, an addressable collection of
contribution records keyed by address. -/
abbrev Ledger := List (Addr × ContributionRecord)

/-- Modelled from the spec: O(1)-by-address lookup of a contribution record. -/
def lookupRecord : Ledger → Addr → Option ContributionRecord
  | [], _ => none
  | (b, r) :: rest, a => if b = a then some r else lookupRecord rest a

/-- Modelled from the spec: the Ledger Store upsert used by Contribute —
repeated contributions from one address reuse the same record, a first
contribution creates it lazily. -/
def creditContribution : Ledger → Addr → Nat → Ledger
  | [], a, amt => [(a, { amountContributed := amt, tokensClaimed := false, refunded := false })]
  | (b, r) :: rest, a, amt =>
    if b = a then (b, { r with amountContributed := r.amountContributed + amt }) :: rest
    else (b, r) :: creditContribution rest a amt

/-- Modelled from the spec: mark a record's tokens as claimed (set exactly once). -/
def markClaimed : Ledger → Addr → Ledger
  | [], _ => []
  | (b, r) :: rest, a =>
    if b = a then (b, { r with tokensClaimed := true }) :: rest
    else (b, r) :: markClaimed rest a

/-- Modelled from the spec: mark a record as refunded (set exactly once). -/
def markRefunded : Ledger → Addr → Ledger
  | [], _ => []
  | (b, r) :: rest, a =>
    if b = a then (b, { r with refunded := true }) :: rest
    else (b, r) :: markRefunded rest a

/-- Modelled from the spec: the singleton global ContractState of one
deployed funding instance. -/
structure ContractState where
  goal : Nat
  deadline : Nat
  tokenRate : Nat
  depositAmount : Nat
  raisedTotal : Nat
  creatorAddress : Addr
  adminAddress : Addr
  depositReturned : Bool
  feeWithdrawn : Bool
  records : Ledger
  deriving DecidableEq, Repr

/-- Modelled from the spec: the contract lifecycle stage. -/
inductive Phase
  | Funding
  | Succeeded
  | Failed
  deriving DecidableEq, Repr

/-- Modelled from the spec: lazy phase resolution — Funding while
now < deadline; after the deadline, Succeeded iff raisedTotal >= goal
(inclusive comparison), else Failed. -/
def resolvePhase (s : ContractState) (now : Nat) : Phase :=
  if now < s.deadline then Phase.Funding
  else if s.goal ≤ s.raisedTotal then Phase.Succeeded
  else Phase.Failed

/-- Modelled from the spec: the engine's structured rejection reasons. -/
inductive EngineError
  | DeadlinePassed
  | NonPositiveAmount
  | AmountMismatch
  | StillFunding
  | GoalNotReached
  | GoalReached
  | AlreadyClaimed
  | AlreadyRefunded
  | NoContribution
  | WrongCaller
  | AlreadyWithdrawn
  | DepositAlreadyReturned
  deriving DecidableEq, Repr

/-- Modelled from the spec: the error taxonomy of section 7. -/
inductive ErrorKind
  | PreconditionViolation
  | AmountMismatchKind
  | DuplicateAction
  | NotFound
  deriving DecidableEq, Repr

/-- Modelled from the spec: which taxonomy kind each engine error belongs to —
a one-time action attempted twice is a DuplicateAction. -/
def kindOf : EngineError → ErrorKind
  | EngineError.AmountMismatch => ErrorKind.AmountMismatchKind
  | EngineError.AlreadyClaimed => ErrorKind.DuplicateAction
  | EngineError.AlreadyRefunded => ErrorKind.DuplicateAction
  | EngineError.AlreadyWithdrawn => ErrorKind.DuplicateAction
  | EngineError.DepositAlreadyReturned => ErrorKind.DuplicateAction
  | EngineError.NoContribution => ErrorKind.NotFound
  | _ => ErrorKind.PreconditionViolation

/-- Modelled from the spec: the asset moved by a payout. -/
inductive Asset
  | currency
  | token
  deriving DecidableEq, Repr

/-- Modelled from the spec: one outbound payment made by a committed
operation. -/
structure Transfer where
  asset : Asset
  dest : Addr
  amount : Nat
  deriving DecidableEq, Repr

/-- Modelled from the spec: Contribute(from, amount) — requires the phase to
be Funding, a positive amount, and the attached payment leg to equal the
declared amount; credits the record and the raised total atomically. -/
def contribute (s : ContractState) (sender : Addr) (amount attached now : Nat) :
    Except EngineError (ContractState × List Transfer) :=
  if now < s.deadline then
    if amount = 0 then Except.error EngineError.NonPositiveAmount
    else if attached ≠ amount then Except.error EngineError.AmountMismatch
    else Except.ok
      ({ s with
          raisedTotal := s.raisedTotal + amount,
          records := creditContribution s.records sender amount }, [])
  else Except.error EngineError.DeadlinePassed

/-- Modelled from the spec: ClaimTokens(address) — phase must resolve to
Succeeded, the record must exist, be unclaimed and positive; transfers
amountContributed * tokenRate tokens and sets tokensClaimed. -/
def claimTokens (s : ContractState) (a : Addr) (now : Nat) :
    Except EngineError (ContractState × List Transfer) :=
  match resolvePhase s now with
  | Phase.Funding => Except.error EngineError.StillFunding
  | Phase.Failed => Except.error EngineError.GoalNotReached
  | Phase.Succeeded =>
    match lookupRecord s.records a with
    | none => Except.error EngineError.NoContribution
    | some r =>
      if r.tokensClaimed then Except.error EngineError.AlreadyClaimed
      else if r.amountContributed = 0 then Except.error EngineError.NoContribution
      else Except.ok
        ({ s with records := markClaimed s.records a },
         [{ asset := Asset.token, dest := a, amount := r.amountContributed * s.tokenRate }])

/-- Modelled from the spec: Refund(address) — phase must resolve to Failed,
the record must exist, be unrefunded and positive; returns the contribution
and sets refunded. -/
def refundOp (s : ContractState) (a : Addr) (now : Nat) :
    Except EngineError (ContractState × List Transfer) :=
  match resolvePhase s now with
  | Phase.Funding => Except.error EngineError.StillFunding
  | Phase.Succeeded => Except.error EngineError.GoalReached
  | Phase.Failed =>
    match lookupRecord s.records a with
    | none => Except.error EngineError.NoContribution
    | some r =>
      if r.refunded then Except.error EngineError.AlreadyRefunded
      else if r.amountContributed = 0 then Except.error EngineError.NoContribution
      else Except.ok
        ({ s with records := markRefunded s.records a },
         [{ asset := Asset.currency, dest := a, amount := r.amountContributed }])

/-- Modelled from the spec: WithdrawFunds(caller) — creator-only success
payout of min(raisedTotal, goal), split 98% to the creator and 2% to the
admin; the excess above the goal is not swept. -/
def withdrawFunds (s : ContractState) (caller : Addr) (now : Nat) :
    Except EngineError (ContractState × List Transfer) :=
  if caller ≠ s.creatorAddress then Except.error EngineError.WrongCaller
  else match resolvePhase s now with
  | Phase.Funding => Except.error EngineError.StillFunding
  | Phase.Failed => Except.error EngineError.GoalNotReached
  | Phase.Succeeded =>
    if s.feeWithdrawn then Except.error EngineError.AlreadyWithdrawn
    else Except.ok
      ({ s with feeWithdrawn := true },
       [{ asset := Asset.currency, dest := s.creatorAddress,
          amount := min s.raisedTotal s.goal * 98 / 100 },
        { asset := Asset.currency, dest := s.adminAddress,
          amount := min s.raisedTotal s.goal * 2 / 100 }])

/-- Modelled from the spec: ReturnDeposit(caller) — on success the deposit
goes back to the creator, once. -/
def returnDeposit (s : ContractState) (now : Nat) :
    Except EngineError (ContractState × List Transfer) :=
  match resolvePhase s now with
  | Phase.Funding => Except.error EngineError.StillFunding
  | Phase.Failed => Except.error EngineError.GoalNotReached
  | Phase.Succeeded =>
    if s.depositReturned then Except.error EngineError.DepositAlreadyReturned
    else Except.ok
      ({ s with depositReturned := true },
       [{ asset := Asset.currency, dest := s.creatorAddress, amount := s.depositAmount }])

/-- Modelled from the spec: ReclaimDepositOnFailure(caller) — on failure the
deposit is split 50/50 between the admin and the creator, once. -/
def reclaimDepositOnFailure (s : ContractState) (now : Nat) :
    Except EngineError (ContractState × List Transfer) :=
  match resolvePhase s now with
  | Phase.Funding => Except.error EngineError.StillFunding
  | Phase.Succeeded => Except.error EngineError.GoalReached
  | Phase.Failed =>
    if s.depositReturned then Except.error EngineError.DepositAlreadyReturned
    else Except.ok
      ({ s with depositReturned := true },
       [{ asset := Asset.currency, dest := s.adminAddress, amount := s.depositAmount / 2 },
        { asset := Asset.currency, dest := s.creatorAddress, amount := s.depositAmount / 2 }])

/-- Modelled from the spec: contract creation — the creator posts a deposit
of 2% of the goal, fixed at creation; the ledger starts empty. -/
def createContract (goal deadline tokenRate : Nat) (creator admin : Addr) : ContractState :=
  { goal := goal
    deadline := deadline
    tokenRate := tokenRate
    depositAmount := goal * 2 / 100
    raisedTotal := 0
    creatorAddress := creator
    adminAddress := admin
    depositReturned := false
    feeWithdrawn := false
    records := [] }

/-- Modelled from the spec: the engine's public operations as one step type. -/
inductive Op
  | contribute (sender : Addr) (amount attached : Nat)
  | claimTokens (a : Addr)
  | refundOp (a : Addr)
  | withdrawFunds (caller : Addr)
  | returnDeposit
  | reclaimDepositOnFailure
  deriving DecidableEq, Repr

/-- Modelled from the spec: dispatch one operation against the current state. -/
def applyOp (s : ContractState) (op : Op) (now : Nat) :
    Except EngineError (ContractState × List Transfer) :=
  match op with
  | Op.contribute sender amount attached => contribute s sender amount attached now
  | Op.claimTokens a => claimTokens s a now
  | Op.refundOp a => refundOp s a now
  | Op.withdrawFunds caller => withdrawFunds s caller now
  | Op.returnDeposit => returnDeposit s now
  | Op.reclaimDepositOnFailure => reclaimDepositOnFailure s now

/-- Modelled from the spec: serial commit — a rejected operation leaves the
committed state untouched (atomic, no partial effects). -/
def commitOp (s : ContractState) (op : Op) (now : Nat) : ContractState :=
  match applyOp s op now with
  | Except.ok (s2, _) => s2
  | Except.error _ => s

/-- Modelled from the spec: run a serial trace of timestamped operations. -/
def execTrace (s : ContractState) : List (Op × Nat) → ContractState
  | [] => s
  | (op, now) :: rest => execTrace (commitOp s op now) rest

/-- The payouts of an operation result (none when it was rejected). -/
def payoutsOf : Except EngineError (ContractState × List Transfer) → List Transfer
  | Except.ok (_, ts) => ts
  | Except.error _ => []

/-- Total tokens transferred to an address by a payout list. -/
def tokensPaidTo (a : Addr) (ts : List Transfer) : Nat :=
  (ts.filterMap fun t => if t.asset = Asset.token ∧ t.dest = a then some t.amount else none).sum

/-- Sum of all recorded contributions in a ledger. -/
def sumContribs (l : Ledger) : Nat :=
  (l.map fun p => p.2.amountContributed).sum

/-- One successfully committed contribution call. -/
structure ContribCall where
  sender : Addr
  amount : Nat
  attached : Nat
  now : Nat
  deriving DecidableEq, Repr

/-- Commit one Contribute call (rejections leave the state untouched). -/
def commitContribute (s : ContractState) (c : ContribCall) : ContractState :=
  commitOp s (Op.contribute c.sender c.amount c.attached) c.now

/-- Run a sequence of Contribute calls serially. -/
def execContribs (s : ContractState) : List ContribCall → ContractState
  | [] => s
  | c :: rest => execContribs (commitContribute s c) rest

theorem sumContribs_credit (l : Ledger) (a : Addr) (amt : Nat) :
    sumContribs (creditContribution l a amt) = sumContribs l + amt := by
  induction l with
  | nil => simp [creditContribution, sumContribs]
  | cons hd tl ih =>
    obtain ⟨b, r⟩ := hd
    by_cases hb : b = a
    · simp [creditContribution, hb, sumContribs]
      omega
    · simp [creditContribution, hb, sumContribs] at ih ⊢
      omega

theorem commitContribute_invariant (s : ContractState) (c : ContribCall)
    (h : sumContribs s.records = s.raisedTotal) :
    sumContribs (commitContribute s c).records = (commitContribute s c).raisedTotal := by
  by_cases h1 : c.now < s.deadline
  · by_cases h2 : c.amount = 0
    · simp [commitContribute, commitOp, applyOp, contribute, h1, h2, h]
    · by_cases h3 : c.attached = c.amount
      · simp [commitContribute, commitOp, applyOp, contribute, h1, h2, h3,
          sumContribs_credit, h]
      · simp [commitContribute, commitOp, applyOp, contribute, h1, h2, h3, h]
  · simp [commitContribute, commitOp, applyOp, contribute, h1, h]

/-- C1: for every sequence of Contribute calls committed serially while the
phase is Funding, after each commit the sum of all recorded
amountContributed values equals the ContractState field raisedTotal. -/
theorem contribute_sum_eq_raisedTotal (s : ContractState) (calls : List ContribCall)
    (h : sumContribs s.records = s.raisedTotal) :
    sumContribs (execContribs s calls).records = (execContribs s calls).raisedTotal := by
  induction calls generalizing s with
  | nil => simpa [execContribs] using h
  | cons c rest ih =>
    simpa [execContribs] using ih (commitContribute s c) (commitContribute_invariant s c h)

/-- C1 witness: a concrete two-call funding run keeps the ledger sum equal to
the raised total. -/
theorem contribute_sum_eq_raisedTotal_witness :
    sumContribs (execContribs (createContract 100 10 1 "CR" "AD")
        [⟨"X", 60, 60, 0⟩, ⟨"Y", 50, 50, 3⟩]).records =
      (execContribs (createContract 100 10 1 "CR" "AD")
        [⟨"X", 60, 60, 0⟩, ⟨"Y", 50, 50, 3⟩]).raisedTotal :=
  contribute_sum_eq_raisedTotal (createContract 100 10 1 "CR" "AD")
    [⟨"X", 60, 60, 0⟩, ⟨"Y", 50, 50, 3⟩] rfl

theorem lookupRecord_markClaimed (l : Ledger) (a : Addr) (r : ContributionRecord)
    (h : lookupRecord l a = some r) :
    lookupRecord (markClaimed l a) a = some { r with tokensClaimed := true } := by
  induction l with
  | nil => simp [lookupRecord] at h
  | cons hd tl ih =>
    obtain ⟨b, rb⟩ := hd
    by_cases hb : b = a
    · simp [lookupRecord, markClaimed, hb] at h ⊢
      simp [h]
    · simp [lookupRecord, markClaimed, hb] at h ⊢
      exact ih h

theorem resolvePhase_records (s : ContractState) (l : Ledger) (now : Nat) :
    resolvePhase { s with records := l } now = resolvePhase s now := rfl

/-- C2: once a first ClaimTokens(addr) has succeeded and set tokensClaimed,
an immediate second ClaimTokens(addr) is rejected with AlreadyClaimed — a
DuplicateAction — and pays nothing, so the address receives exactly
amountContributed * tokenRate tokens from the first call only. -/
theorem claimTokens_no_double_pay (s : ContractState) (a : Addr) (now : Nat)
    (r : ContributionRecord)
    (hphase : resolvePhase s now = Phase.Succeeded)
    (hrec : lookupRecord s.records a = some r)
    (hunclaimed : r.tokensClaimed = false)
    (hpos : 0 < r.amountContributed) :
    claimTokens s a now =
      Except.ok ({ s with records := markClaimed s.records a },
        [{ asset := Asset.token, dest := a, amount := r.amountContributed * s.tokenRate }]) ∧
    claimTokens { s with records := markClaimed s.records a } a now =
      Except.error EngineError.AlreadyClaimed ∧
    kindOf EngineError.AlreadyClaimed = ErrorKind.DuplicateAction ∧
    tokensPaidTo a (payoutsOf (claimTokens s a now)) = r.amountContributed * s.tokenRate ∧
    tokensPaidTo a
      (payoutsOf (claimTokens { s with records := markClaimed s.records a } a now)) = 0 := by
  have hfirst : claimTokens s a now =
      Except.ok ({ s with records := markClaimed s.records a },
        [{ asset := Asset.token, dest := a, amount := r.amountContributed * s.tokenRate }]) := by
    unfold claimTokens
    rw [hphase, hrec]
    simp [hunclaimed]
    omega
  have hsecond : claimTokens { s with records := markClaimed s.records a } a now =
      Except.error EngineError.AlreadyClaimed := by
    unfold claimTokens
    rw [resolvePhase_records, hphase]
    have := lookupRecord_markClaimed s.records a r hrec
    simp only at this
    rw [this]
    simp
  refine ⟨hfirst, hsecond, rfl, ?_, ?_⟩
  · rw [hfirst]
    simp [payoutsOf, tokensPaidTo]
  · rw [hsecond]
    simp [payoutsOf, tokensPaidTo]

/-- A concrete record used by the C2 witness. -/
def sampleRecord : ContributionRecord :=
  { amountContributed := 60, tokensClaimed := false, refunded := false }

/-- A concrete succeeded contract state used by the C2 witness. -/
def sampleSucceeded : ContractState :=
  { goal := 100, deadline := 10, tokenRate := 3, depositAmount := 2, raisedTotal := 110,
    creatorAddress := "CR", adminAddress := "AD", depositReturned := false,
    feeWithdrawn := false, records := [("X", sampleRecord)] }

/-- C2 witness: a concrete succeeded contract pays 60 * 3 tokens on the first
claim and rejects the second with AlreadyClaimed. -/
theorem claimTokens_no_double_pay_witness :
    claimTokens sampleSucceeded "X" 10 =
      Except.ok ({ sampleSucceeded with records := markClaimed sampleSucceeded.records "X" },
        [{ asset := Asset.token, dest := "X",
           amount := sampleRecord.amountContributed * sampleSucceeded.tokenRate }]) ∧
    claimTokens { sampleSucceeded with records := markClaimed sampleSucceeded.records "X" }
        "X" 10 = Except.error EngineError.AlreadyClaimed ∧
    kindOf EngineError.AlreadyClaimed = ErrorKind.DuplicateAction ∧
    tokensPaidTo "X" (payoutsOf (claimTokens sampleSucceeded "X" 10)) =
      sampleRecord.amountContributed * sampleSucceeded.tokenRate ∧
    tokensPaidTo "X" (payoutsOf (claimTokens
      { sampleSucceeded with records := markClaimed sampleSucceeded.records "X" } "X" 10)) = 0 :=
  claimTokens_no_double_pay sampleSucceeded "X" 10 sampleRecord
    (by decide) (by decide) (by decide) (by decide)

theorem applyOp_ok_config (s : ContractState) (op : Op) (now : Nat)
    (s2 : ContractState) (ts : List Transfer)
    (h : applyOp s op now = Except.ok (s2, ts)) :
    s2.goal = s.goal ∧ s2.deadline = s.deadline ∧ s2.depositAmount = s.depositAmount ∧
    s2.tokenRate = s.tokenRate ∧ s2.creatorAddress = s.creatorAddress ∧
    s2.adminAddress = s.adminAddress := by
  cases op <;>
    simp only [applyOp, contribute, claimTokens, refundOp, withdrawFunds, returnDeposit,
      reclaimDepositOnFailure] at h <;>
    (repeat' split at h) <;>
    (try (injection h with hp; injection hp with h1 h2; subst h1)) <;>
    simp_all

theorem commitOp_config (s : ContractState) (op : Op) (now : Nat) :
    (commitOp s op now).goal = s.goal ∧ (commitOp s op now).deadline = s.deadline ∧
    (commitOp s op now).depositAmount = s.depositAmount ∧
    (commitOp s op now).tokenRate = s.tokenRate ∧
    (commitOp s op now).creatorAddress = s.creatorAddress ∧
    (commitOp s op now).adminAddress = s.adminAddress := by
  cases happ : applyOp s op now with
  | error e => simp [commitOp, happ]
  | ok p =>
    obtain ⟨s2, ts⟩ := p
    simpa [commitOp, happ] using applyOp_ok_config s op now s2 ts happ

theorem applyOp_ok_raisedTotal (s : ContractState) (op : Op) (now : Nat)
    (s2 : ContractState) (ts : List Transfer)
    (hnow : s.deadline ≤ now)
    (h : applyOp s op now = Except.ok (s2, ts)) :
    s2.raisedTotal = s.raisedTotal := by
  cases op <;>
    simp only [applyOp, contribute, claimTokens, refundOp, withdrawFunds, returnDeposit,
      reclaimDepositOnFailure] at h <;>
    (repeat' split at h) <;>
    (try (injection h with hp; injection hp with h1 h2; subst h1)) <;>
    simp_all <;> omega

theorem commitOp_raisedTotal (s : ContractState) (op : Op) (now : Nat)
    (hnow : s.deadline ≤ now) :
    (commitOp s op now).raisedTotal = s.raisedTotal := by
  cases happ : applyOp s op now with
  | error e => simp [commitOp, happ]
  | ok p =>
    obtain ⟨s2, ts⟩ := p
    simpa [commitOp, happ] using applyOp_ok_raisedTotal s op now s2 ts hnow happ

theorem execTrace_late (s : ContractState) (tr : List (Op × Nat))
    (h : ∀ x ∈ tr, s.deadline ≤ x.2) :
    (execTrace s tr).goal = s.goal ∧ (execTrace s tr).deadline = s.deadline ∧
    (execTrace s tr).raisedTotal = s.raisedTotal := by
  induction tr generalizing s with
  | nil => exact ⟨rfl, rfl, rfl⟩
  | cons x rest ih =>
    obtain ⟨op, t⟩ := x
    have ht : s.deadline ≤ t := h (op, t) (by simp)
    have hc := commitOp_config s op t
    have hr := commitOp_raisedTotal s op t ht
    have hrest : ∀ y ∈ rest, (commitOp s op t).deadline ≤ y.2 := by
      intro y hy
      rw [hc.2.1]
      exact h y (by simp [hy])
    have hind := ih (commitOp s op t) hrest
    simp only [execTrace]
    exact ⟨hind.1.trans hc.1, hind.2.1.trans hc.2.1, hind.2.2.trans hr⟩

/-- C3: once the deadline has passed, the phase resolves to exactly one of
Succeeded or Failed — Succeeded iff raisedTotal >= goal, with equality
counting as success — and every subsequent operation sequence evaluated
after the deadline leaves the resolved phase unchanged. -/
theorem phase_resolution_exclusive_terminal (s : ContractState) (now now2 : Nat)
    (tr : List (Op × Nat))
    (hnow : s.deadline ≤ now) (hnow2 : s.deadline ≤ now2)
    (htr : ∀ x ∈ tr, s.deadline ≤ x.2) :
    (resolvePhase s now = Phase.Succeeded ↔ s.goal ≤ s.raisedTotal) ∧
    (resolvePhase s now = Phase.Failed ↔ s.raisedTotal < s.goal) ∧
    resolvePhase s now ≠ Phase.Funding ∧
    resolvePhase (execTrace s tr) now2 = resolvePhase s now := by
  have hlt : ¬ now < s.deadline := by omega
  obtain ⟨hg, hd, hr⟩ := execTrace_late s tr htr
  have hlt2 : ¬ now2 < s.deadline := by omega
  have hstable : resolvePhase (execTrace s tr) now2 = resolvePhase s now := by
    unfold resolvePhase
    rw [hg, hr, hd]
    simp [hlt, hlt2]
  by_cases hgoal : s.goal ≤ s.raisedTotal
  · refine ⟨?_, ?_, ?_, hstable⟩ <;> simp [resolvePhase, hlt, hgoal] <;> omega
  · refine ⟨?_, ?_, ?_, hstable⟩ <;> simp [resolvePhase, hlt, hgoal] <;> omega

/-- C3 witness: a concrete underfunded contract resolves to Failed at the
deadline and stays Failed across a later claim and a late contribution. -/
theorem phase_resolution_exclusive_terminal_witness :
    (resolvePhase (createContract 100 10 1 "CR" "AD") 10 = Phase.Succeeded ↔
      (createContract 100 10 1 "CR" "AD").goal ≤
        (createContract 100 10 1 "CR" "AD").raisedTotal) ∧
    (resolvePhase (createContract 100 10 1 "CR" "AD") 10 = Phase.Failed ↔
      (createContract 100 10 1 "CR" "AD").raisedTotal <
        (createContract 100 10 1 "CR" "AD").goal) ∧
    resolvePhase (createContract 100 10 1 "CR" "AD") 10 ≠ Phase.Funding ∧
    resolvePhase (execTrace (createContract 100 10 1 "CR" "AD")
        [(Op.claimTokens "X", 12), (Op.contribute "X" 5 5, 13)]) 25 =
      resolvePhase (createContract 100 10 1 "CR" "AD") 10 :=
  phase_resolution_exclusive_terminal (createContract 100 10 1 "CR" "AD") 10 25
    [(Op.claimTokens "X", 12), (Op.contribute "X" 5 5, 13)]
    (by decide) (by decide) (by decide)

/-- C4: with phase Succeeded, the creator as caller and the fee not yet
withdrawn, WithdrawFunds pays exactly 98% of min(raisedTotal, goal) to the
creator and 2% to the admin, pays out no more than min(raisedTotal, goal) —
leaving any amount raised beyond the goal unswept and every contribution
record untouched — and sets feeWithdrawn. -/
theorem withdrawFunds_success_split (s : ContractState) (now : Nat)
    (hphase : resolvePhase s now = Phase.Succeeded)
    (hfee : s.feeWithdrawn = false) :
    withdrawFunds s s.creatorAddress now =
      Except.ok ({ s with feeWithdrawn := true },
        [{ asset := Asset.currency, dest := s.creatorAddress,
           amount := min s.raisedTotal s.goal * 98 / 100 },
         { asset := Asset.currency, dest := s.adminAddress,
           amount := min s.raisedTotal s.goal * 2 / 100 }]) ∧
    min s.raisedTotal s.goal * 98 / 100 + min s.raisedTotal s.goal * 2 / 100 ≤
      min s.raisedTotal s.goal ∧
    ({ s with feeWithdrawn := true } : ContractState).raisedTotal = s.raisedTotal ∧
    ({ s with feeWithdrawn := true } : ContractState).records = s.records := by
  refine ⟨?_, ?_, rfl, rfl⟩
  · unfold withdrawFunds
    rw [hphase]
    simp [hfee]
  · omega

/-- C4 witness: with goal 100 and 110 raised, the creator is paid 98 and the
admin 2 — 98% and 2% of min(110, 100) = 100. -/
theorem withdrawFunds_success_split_witness :
    withdrawFunds sampleSucceeded sampleSucceeded.creatorAddress 10 =
      Except.ok ({ sampleSucceeded with feeWithdrawn := true },
        [{ asset := Asset.currency, dest := sampleSucceeded.creatorAddress, amount := 98 },
         { asset := Asset.currency, dest := sampleSucceeded.adminAddress, amount := 2 }]) ∧
    (98 : Nat) + 2 ≤ min sampleSucceeded.raisedTotal sampleSucceeded.goal ∧
    ({ sampleSucceeded with feeWithdrawn := true } : ContractState).raisedTotal =
      sampleSucceeded.raisedTotal ∧
    ({ sampleSucceeded with feeWithdrawn := true } : ContractState).records =
      sampleSucceeded.records :=
  withdrawFunds_success_split sampleSucceeded 10 (by decide) rfl

/-- C5: the deposit is fixed at creation to 2% of the goal and never changes
under any committed operation, and on failure a first
ReclaimDepositOnFailure pays exactly depositAmount/2 to the admin and
depositAmount/2 to the creator and sets depositReturned. -/
theorem deposit_two_percent_fixed_and_split (g d r : Nat) (c a : Addr)
    (s : ContractState) (now : Nat)
    (hphase : resolvePhase s now = Phase.Failed)
    (hdep : s.depositReturned = false) :
    (createContract g d r c a).depositAmount = g * 2 / 100 ∧
    (∀ op now2, (commitOp s op now2).depositAmount = s.depositAmount) ∧
    reclaimDepositOnFailure s now =
      Except.ok ({ s with depositReturned := true },
        [{ asset := Asset.currency, dest := s.adminAddress, amount := s.depositAmount / 2 },
         { asset := Asset.currency, dest := s.creatorAddress, amount := s.depositAmount / 2 }]) := by
  refine ⟨rfl, ?_, ?_⟩
  · intro op now2
    exact (commitOp_config s op now2).2.2.1
  · unfold reclaimDepositOnFailure
    rw [hphase]
    simp [hdep]

/-- C5 witness: with goal 1_000_000 the deposit is 20_000 (2% of the goal) and
on failure the reclaim pays exactly 10_000 to the admin and 10_000 to the
creator. -/
theorem deposit_two_percent_fixed_and_split_witness :
    (createContract 1000000 10 1 "CR" "AD").depositAmount = 1000000 * 2 / 100 ∧
    (∀ op now2,
      (commitOp (createContract 1000000 10 1 "CR" "AD") op now2).depositAmount =
        (createContract 1000000 10 1 "CR" "AD").depositAmount) ∧
    reclaimDepositOnFailure (createContract 1000000 10 1 "CR" "AD") 10 =
      Except.ok ({ createContract 1000000 10 1 "CR" "AD" with depositReturned := true },
        [{ asset := Asset.currency, dest := "AD", amount := 10000 },
         { asset := Asset.currency, dest := "CR", amount := 10000 }]) :=
  deposit_two_percent_fixed_and_split 1000000 10 1 "CR" "AD"
    (createContract 1000000 10 1 "CR" "AD") 10 (by decide) rfl

end Hyperdrive

namespace HyperdriveUi

/-- The signer environment the bridge runs in: the active wallet address and
the external algosdk / wallet-hook / algod primitives
(decodeUnsignedTransaction, encodeUnsignedTransaction, signTransactions,
sendRawTransaction), abstracted as functions. -/
structure SignerEnv where
  activeAddress : Option String
  decode : String → Nat
  encode : Nat → Nat
  sign : List Nat → Except String (List Nat)
  send : List Nat → Except String String

/-- One observable browser effect of a click handler: a network request, a
wallet signing call, a raw-transaction submission, an alert, a hint text
update, or a page reload. -/
inductive Effect
  | fetch (url : String)
  | signCall (txns : List Nat)
  | sendRaw (payload : List Nat)
  | alertBox (msg : String)
  | hint (msg : String)
  | reload
  deriving DecidableEq, Repr

/-- bridge.ts: the unsigned byte blobs of a base64 group —
`b64Group.map(decodeUnsignedTransaction).map(encodeUnsignedTransaction)`. -/
def groupBytes (env : SignerEnv) (g : List String) : List Nat :=
  (g.map env.decode).map env.encode

/-- frontend/src/bridge.ts signAndSendGroup: require an active wallet, decode
and re-encode every leg of the group, sign all legs in one signTransactions
call, and submit the whole signed array in one sendRawTransaction call,
returning its txId. -/
def signAndSendGroup (env : SignerEnv) (g : List String) :
    Except String String × List Effect :=
  match env.activeAddress with
  | none => (Except.error "No active wallet. Please connect first.", [])
  | some _ =>
    match env.sign (groupBytes env g) with
    | Except.error e => (Except.error e, [Effect.signCall (groupBytes env g)])
    | Except.ok signed =>
      match env.send signed with
      | Except.error e =>
        (Except.error e, [Effect.signCall (groupBytes env g), Effect.sendRaw signed])
      | Except.ok txId =>
        (Except.ok txId, [Effect.signCall (groupBytes env g), Effect.sendRaw signed])

/-- frontend/src/bridge.ts signAndSendSingle: delegates to signAndSendGroup
on the one-element group. -/
def signAndSendSingle (env : SignerEnv) (b64Txn : String) :
    Except String String × List Effect :=
  signAndSendGroup env [b64Txn]

/-- JS `a || b` on strings: the empty string is falsy. -/
def jsOrS (a b : String) : String := if a = "" then b else a

/-- `alert(e?.message || String(e))` on a thrown Error: an empty message
degrades to the stringified error. -/
def alertOfError (m : String) : String := jsOrS m "Error"

/-- A fetch response as the click handlers see it: ok flag, HTTP status, raw
body text, the parsed error field ("" when missing, empty or unparseable),
and the parsed group / txn / app_id payloads. -/
structure BuildResponse where
  ok : Bool
  status : Nat
  raw : String
  errField : String
  group : List String
  txn : String
  appId : Nat

/-- JS `!amountAlgo` where amountAlgo = parseFloat(input): true for NaN and
for zero. -/
def jsFalsyNum : Option Rat → Bool
  | none => true
  | some q => q == 0

/-- JS `amountAlgo <= 0`: false for NaN, the sign test otherwise. -/
def jsLeZero : Option Rat → Bool
  | none => false
  | some q => decide (q ≤ 0)

/-- The contribute handlers' guard `!amountAlgo || amountAlgo <= 0`. -/
def badAmount (p : Option Rat) : Bool := jsFalsyNum p || jsLeZero p

def contribUrl (pid : String) : String :=
  "/api/projects/" ++ pid ++ "/build_contribution"

def claimUrl (pid : String) : String :=
  "/api/projects/" ++ pid ++ "/build_claim_tokens"

def refundUrl (pid : String) : String :=
  "/api/projects/" ++ pid ++ "/build_refund"

def deployBuildUrl (pid : String) : String :=
  "/api/projects/" ++ pid ++ "/deploy/build"

def deployFinalizeUrl (pid : String) : String :=
  "/api/projects/" ++ pid ++ "/deploy/finalize"

def buildFailedMsg (st : Nat) : String := "Build failed (" ++ toString st ++ ")"

def buildDeployFailedMsg (st : Nat) : String :=
  "Build deploy failed (" ++ toString st ++ ")"

def finalizeFailedMsg (st : Nat) : String := "Finalize failed (" ++ toString st ++ ")"

def contribSuccessMsg (txId : String) : String :=
  "Contributed! TxID: " ++ txId ++ "\n\nExplorer:\nhttps://testnet.algoexplorer.io/tx/" ++ txId

def claimSuccessMsg (txId : String) : String := "Claim submitted! TxID: " ++ txId

def refundSuccessMsg (txId : String) : String := "Refund submitted! TxID: " ++ txId

/-- backend/static/js/wallet.js (react-bridge version), btn-contribute click
handler: connect guard, amount guard, build fetch, then one
signAndSendGroup over the whole returned group; a thrown error is surfaced
in a single alert and the handler ends. -/
def contributeClick (env : SignerEnv) (pid : String) (amountParsed : Option Rat)
    (resp : BuildResponse) : List Effect :=
  match env.activeAddress with
  | none => [Effect.alertBox "Connect wallet first."]
  | some _ =>
    if badAmount amountParsed then [Effect.alertBox "Enter an amount > 0"]
    else
      Effect.fetch (contribUrl pid) ::
      (if resp.ok = false then
        [Effect.alertBox (alertOfError
          (jsOrS resp.errField (jsOrS resp.raw (buildFailedMsg resp.status))))]
      else
        match signAndSendGroup env resp.group with
        | (Except.error e, effs) => effs ++ [Effect.alertBox (alertOfError e)]
        | (Except.ok txId, effs) => effs ++ [Effect.alertBox (contribSuccessMsg txId)])

/-- Same file, btn-claim-tokens click handler: build fetch, then one
signAndSendSingle on the returned txn. -/
def claimClick (env : SignerEnv) (pid : String) (resp : BuildResponse) : List Effect :=
  match env.activeAddress with
  | none => [Effect.alertBox "Connect wallet first."]
  | some _ =>
    Effect.fetch (claimUrl pid) ::
    (if resp.ok = false then
      [Effect.alertBox (alertOfError
        (jsOrS resp.errField (jsOrS resp.raw (buildFailedMsg resp.status))))]
    else
      match signAndSendSingle env resp.txn with
      | (Except.error e, effs) => effs ++ [Effect.alertBox (alertOfError e)]
      | (Except.ok txId, effs) => effs ++ [Effect.alertBox (claimSuccessMsg txId)])

/-- Same file, btn-refund click handler. -/
def refundClick (env : SignerEnv) (pid : String) (resp : BuildResponse) : List Effect :=
  match env.activeAddress with
  | none => [Effect.alertBox "Connect wallet first."]
  | some _ =>
    Effect.fetch (refundUrl pid) ::
    (if resp.ok = false then
      [Effect.alertBox (alertOfError
        (jsOrS resp.errField (jsOrS resp.raw (buildFailedMsg resp.status))))]
    else
      match signAndSendSingle env resp.txn with
      | (Except.error e, effs) => effs ++ [Effect.alertBox (alertOfError e)]
      | (Except.ok txId, effs) => effs ++ [Effect.alertBox (refundSuccessMsg txId)])

/-- Same file, btn-deploy click handler: build fetch, group check, one
signAndSendGroup, finalize fetch; a thrown error is surfaced in a single
alert and the hint is cleared. -/
def deployClick (env : SignerEnv) (pid : String) (resp fin : BuildResponse) :
    List Effect :=
  match env.activeAddress with
  | none => [Effect.alertBox "Connect a wallet first.", Effect.hint ""]
  | some _ =>
    Effect.hint "Building deploy transaction…" ::
    Effect.fetch (deployBuildUrl pid) ::
    (if resp.ok = false then
      [Effect.alertBox (alertOfError
        (jsOrS resp.errField (jsOrS resp.raw (buildDeployFailedMsg resp.status)))),
       Effect.hint ""]
    else if resp.group.isEmpty then
      [Effect.alertBox (alertOfError (jsOrS resp.errField "No deploy group returned.")),
       Effect.hint ""]
    else
      Effect.hint "Waiting for wallet signature…" ::
      match signAndSendGroup env resp.group with
      | (Except.error e, effs) => effs ++ [Effect.alertBox (alertOfError e), Effect.hint ""]
      | (Except.ok _, effs) =>
        effs ++
        (Effect.hint "Finalizing deployment…" ::
         Effect.fetch (deployFinalizeUrl pid) ::
         (if fin.ok = false then
           [Effect.alertBox (alertOfError
             (jsOrS fin.errField (jsOrS fin.raw (finalizeFailedMsg fin.status)))),
            Effect.hint ""]
         else
           [Effect.hint ("Deployed! App ID " ++ toString fin.appId ++ ". Reloading…"),
            Effect.reload])))

/-- The environment of the legacy wallet helpers (part_001 and
backend/static/js/wallet.js): connected address, whether the Pera UMD
signer is present, and the decode / sign primitives. -/
structure LegacyEnv where
  connectedAddr : Option String
  peraPresent : Bool
  decode : String → Nat
  sign : List Nat → Except String (List Nat)

/-- Legacy React-driven wallet helper (part_001), signAndSend: signs with the
Pera UMD signer when present and only alerts — it never broadcasts. -/
def legacySignAndSend (lenv : LegacyEnv) (raws : List String) :
    Except String (List Nat) × List Effect :=
  match lenv.connectedAddr with
  | none => (Except.error "Connect a wallet first (top-right Connect Wallet).", [])
  | some _ =>
    if lenv.peraPresent then
      match lenv.sign (raws.map lenv.decode) with
      | Except.error e => (Except.error e, [Effect.signCall (raws.map lenv.decode)])
      | Except.ok signed =>
        (Except.ok signed,
         [Effect.signCall (raws.map lenv.decode),
          Effect.alertBox "Signed! Submit the signed blob to your node/relay.\n(Dev tip: add an /api/broadcast endpoint to send it from the server.)"])
    else
      (Except.error "No in-page signer available. The React wallet widget manages connections; either wire signing there or add a server /api/broadcast to relay signed blobs.", [])

/-- Legacy wallet helper (part_001), btn-contribute click handler: amount
guard first, then build fetch and signAndSend; errors alerted once. -/
def legacyContributeClick (lenv : LegacyEnv) (pid : String) (amountParsed : Option Rat)
    (resp : BuildResponse) : List Effect :=
  if badAmount amountParsed then [Effect.alertBox "Enter an amount"]
  else
    Effect.fetch (contribUrl pid) ::
    (match legacySignAndSend lenv resp.group with
     | (Except.error e, effs) => effs ++ [Effect.alertBox (alertOfError e)]
     | (Except.ok _, effs) => effs)

/-- backend/static/js/wallet.js (plain version), signAndSend: Pera signing
then an alert; never broadcasts; no catch in its callers. -/
def walletJsSignAndSend (wenv : LegacyEnv) (raws : List String) :
    Except String (List Nat) × List Effect :=
  match wenv.connectedAddr with
  | none => (Except.error "Connect wallet first", [])
  | some _ =>
    match wenv.sign (raws.map wenv.decode) with
    | Except.error e => (Except.error e, [Effect.signCall (raws.map wenv.decode)])
    | Except.ok signed =>
      (Except.ok signed,
       [Effect.signCall (raws.map wenv.decode),
        Effect.alertBox "Signed! Submit the signed blob to your node/relay."])

/-- backend/static/js/wallet.js (plain version), btn-contribute click
handler: amount guard first, then build fetch and signAndSend (uncaught
errors end the handler silently). -/
def walletJsContributeClick (wenv : LegacyEnv) (pid : String)
    (amountParsed : Option Rat) (resp : BuildResponse) : List Effect :=
  if badAmount amountParsed then [Effect.alertBox "Enter amount"]
  else Effect.fetch (contribUrl pid) :: (walletJsSignAndSend wenv resp.group).2

/-- Lowercasing as `String.prototype.toLowerCase` over the characters. -/
def lowerStr (s : String) : String := String.mk (s.data.map Char.toLower)

/-- Substring containment over character lists, as `String.prototype.includes`. -/
def containsSub : List Char → List Char → Bool
  | [], pat => pat.isEmpty
  | c :: rest, pat => pat.isPrefixOf (c :: rest) || containsSub rest pat

/-- JS `s.includes(pat)`. -/
def jsIncludes (s pat : String) : Bool := containsSub s.data pat.data

/-- ConnectWallet.tsx isDismissError: the lowercased message is treated as a
user-cancel / dismiss when it contains any of these texts. -/
def isDismissError (err : String) : Bool :=
  let msg := lowerStr err
  jsIncludes msg "closed by user" || jsIncludes msg "user closed" ||
  jsIncludes msg "user rejected" || jsIncludes msg "rejected" ||
  jsIncludes msg "cancelled" || jsIncludes msg "canceled" ||
  jsIncludes msg "modal closed"

/-- One observable effect of the wallet-connect dialog handler. -/
inductive UiEffect
  | closeDialog
  | debugLog
  | alertBox (msg : String)
  deriving DecidableEq, Repr

/-- ConnectWallet.tsx handleConnectClick: close the selector dialog, attempt
wallet.connect(); a dismiss-classified failure only logs to the console,
any other failure alerts; the handler itself never writes the connection
state. -/
def handleConnectClick (connState : Option String) (outcome : Except String Unit) :
    Option String × List UiEffect :=
  match outcome with
  | Except.ok _ => (connState, [UiEffect.closeDialog])
  | Except.error m =>
    if isDismissError m then (connState, [UiEffect.closeDialog, UiEffect.debugLog])
    else (connState, [UiEffect.closeDialog, UiEffect.alertBox (alertOfError m)])

/-- The alert messages of an effect trace, in order. -/
def alertsOf (l : List Effect) : List String :=
  l.filterMap fun e => match e with | Effect.alertBox m => some m | _ => none

/-- The fetched URLs of an effect trace, in order. -/
def fetchesOf (l : List Effect) : List String :=
  l.filterMap fun e => match e with | Effect.fetch u => some u | _ => none

/-- The wallet signing calls of an effect trace, in order. -/
def signsOf (l : List Effect) : List (List Nat) :=
  l.filterMap fun e => match e with | Effect.signCall t => some t | _ => none

/-- The raw-transaction submissions of an effect trace, in order. -/
def sendsOf (l : List Effect) : List (List Nat) :=
  l.filterMap fun e => match e with | Effect.sendRaw p => some p | _ => none

/-- The alert messages of a connect-dialog effect trace. -/
def uiAlertsOf (l : List UiEffect) : List String :=
  l.filterMap fun e => match e with | UiEffect.alertBox m => some m | _ => none

/-- C6: a contribute click with a connected wallet, a valid amount and a
successful build of the two-leg group {payment-leg, call-leg} signs both
legs together in one wallet call and submits them together in exactly one
sendRawTransaction call — the legs are never submitted separately. -/
theorem contribute_single_group_submission (env : SignerEnv) (pid addr : String)
    (amt : Option Rat) (resp : BuildResponse) (payLeg callLeg : String)
    (signed : List Nat) (txId : String)
    (haddr : env.activeAddress = some addr)
    (hamt : badAmount amt = false)
    (hok : resp.ok = true)
    (hgroup : resp.group = [payLeg, callLeg])
    (hsign : env.sign (groupBytes env [payLeg, callLeg]) = Except.ok signed)
    (hsend : env.send signed = Except.ok txId) :
    contributeClick env pid amt resp =
      [Effect.fetch (contribUrl pid),
       Effect.signCall (groupBytes env [payLeg, callLeg]),
       Effect.sendRaw signed,
       Effect.alertBox (contribSuccessMsg txId)] ∧
    sendsOf (contributeClick env pid amt resp) = [signed] ∧
    signsOf (contributeClick env pid amt resp) = [groupBytes env [payLeg, callLeg]] := by
  have h1 : contributeClick env pid amt resp =
      [Effect.fetch (contribUrl pid),
       Effect.signCall (groupBytes env [payLeg, callLeg]),
       Effect.sendRaw signed,
       Effect.alertBox (contribSuccessMsg txId)] := by
    simp [contributeClick, haddr, hamt, hok, hgroup, signAndSendGroup, hsign, hsend]
  refine ⟨h1, ?_, ?_⟩ <;> rw [h1] <;> simp [sendsOf, signsOf]

/-- A concrete signer environment for the frontend witnesses. -/
def sampleEnv : SignerEnv :=
  { activeAddress := some "ADDR"
    decode := fun _ => 7
    encode := fun n => n + 1
    sign := fun l => Except.ok l
    send := fun _ => Except.ok "TX123" }

/-- A concrete successful build response holding a two-leg group. -/
def sampleGroupResp : BuildResponse :=
  { ok := true, status := 200, raw := "", errField := "", group := ["PAY", "CALL"],
    txn := "", appId := 0 }

/-- C6 witness: the concrete click trace fetches once, signs both legs in one
call and submits the signed group in exactly one sendRawTransaction call. -/
theorem contribute_single_group_submission_witness :
    contributeClick sampleEnv "42" (some 5) sampleGroupResp =
      [Effect.fetch (contribUrl "42"),
       Effect.signCall (groupBytes sampleEnv ["PAY", "CALL"]),
       Effect.sendRaw [8, 8],
       Effect.alertBox (contribSuccessMsg "TX123")] ∧
    sendsOf (contributeClick sampleEnv "42" (some 5) sampleGroupResp) = [[8, 8]] ∧
    signsOf (contributeClick sampleEnv "42" (some 5) sampleGroupResp) =
      [groupBytes sampleEnv ["PAY", "CALL"]] :=
  contribute_single_group_submission sampleEnv "42" "ADDR" (some 5) sampleGroupResp
    "PAY" "CALL" [8, 8] "TX123" rfl (by decide) rfl rfl rfl rfl

/-- C8: a wallet-connect attempt that fails with a dismiss-classified error
(the user closed or cancelled the provider popup) leaves the connection
state untouched and shows no alert — only the dialog close and a console
debug line happen. -/
theorem connect_dismiss_no_side_effect (connState : Option String) (m : String)
    (h : isDismissError m = true) :
    handleConnectClick connState (Except.error m) =
      (connState, [UiEffect.closeDialog, UiEffect.debugLog]) ∧
    (handleConnectClick connState (Except.error m)).1 = connState ∧
    uiAlertsOf (handleConnectClick connState (Except.error m)).2 = [] := by
  refine ⟨?_, ?_, ?_⟩ <;> simp [handleConnectClick, h, uiAlertsOf]

/-- C8 witness: the concrete Pera dismissal message is classified as a
dismiss, and the handler keeps the connection state and alerts nothing. -/
theorem connect_dismiss_no_side_effect_witness :
    handleConnectClick (some "ADDR") (Except.error "Connect modal closed by user") =
      (some "ADDR", [UiEffect.closeDialog, UiEffect.debugLog]) ∧
    (handleConnectClick (some "ADDR")
      (Except.error "Connect modal closed by user")).1 = some "ADDR" ∧
    uiAlertsOf (handleConnectClick (some "ADDR")
      (Except.error "Connect modal closed by user")).2 = [] :=
  connect_dismiss_no_side_effect (some "ADDR") "Connect modal closed by user" (by decide)

/-- C9: signAndSendSingle performs exactly the computation of
signAndSendGroup on the one-element group — same effects and the same
returned transaction identifier. -/
theorem signAndSendSingle_refines_group (env : SignerEnv) (b64Txn : String) :
    signAndSendSingle env b64Txn = signAndSendGroup env [b64Txn] ∧
    (signAndSendSingle env b64Txn).1 = (signAndSendGroup env [b64Txn]).1 ∧
    (signAndSendSingle env b64Txn).2 = (signAndSendGroup env [b64Txn]).2 :=
  ⟨rfl, rfl, rfl⟩

/-- C10: when the contribute amount input parses to NaN, zero or a negative
number, each of the three contribute click handlers stops at a single
message: no network request, no signing call and no submission happens. -/
theorem bad_amount_no_request (env : SignerEnv) (lenv wenv : LegacyEnv)
    (pid : String) (amt : Option Rat) (resp : BuildResponse)
    (h : badAmount amt = true) :
    (fetchesOf (contributeClick env pid amt resp) = [] ∧
     signsOf (contributeClick env pid amt resp) = [] ∧
     sendsOf (contributeClick env pid amt resp) = [] ∧
     ∃ m, contributeClick env pid amt resp = [Effect.alertBox m]) ∧
    (fetchesOf (legacyContributeClick lenv pid amt resp) = [] ∧
     signsOf (legacyContributeClick lenv pid amt resp) = [] ∧
     sendsOf (legacyContributeClick lenv pid amt resp) = [] ∧
     legacyContributeClick lenv pid amt resp = [Effect.alertBox "Enter an amount"]) ∧
    (fetchesOf (walletJsContributeClick wenv pid amt resp) = [] ∧
     signsOf (walletJsContributeClick wenv pid amt resp) = [] ∧
     sendsOf (walletJsContributeClick wenv pid amt resp) = [] ∧
     walletJsContributeClick wenv pid amt resp = [Effect.alertBox "Enter amount"]) := by
  refine ⟨?_, ?_, ?_⟩
  · cases haddr : env.activeAddress with
    | none =>
      refine ⟨?_, ?_, ?_, "Connect wallet first.", ?_⟩ <;>
        simp [contributeClick, haddr, fetchesOf, signsOf, sendsOf]
    | some a =>
      refine ⟨?_, ?_, ?_, "Enter an amount > 0", ?_⟩ <;>
        simp [contributeClick, haddr, h, fetchesOf, signsOf, sendsOf]
  · refine ⟨?_, ?_, ?_, ?_⟩ <;>
      simp [legacyContributeClick, h, fetchesOf, signsOf, sendsOf]
  · refine ⟨?_, ?_, ?_, ?_⟩ <;>
      simp [walletJsContributeClick, h, fetchesOf, signsOf, sendsOf]

/-- A concrete legacy environment for the C10 witness. -/
def sampleLegacyEnv : LegacyEnv :=
  { connectedAddr := some "ADDR", peraPresent := true,
    decode := fun _ => 7, sign := fun l => Except.ok l }

/-- C10 witness: a negative parsed amount produces a single message and no
fetch, sign or submit effect in all three handlers. -/
theorem bad_amount_no_request_witness :
    (fetchesOf (contributeClick sampleEnv "42" (some (-1)) sampleGroupResp) = [] ∧
     signsOf (contributeClick sampleEnv "42" (some (-1)) sampleGroupResp) = [] ∧
     sendsOf (contributeClick sampleEnv "42" (some (-1)) sampleGroupResp) = [] ∧
     ∃ m, contributeClick sampleEnv "42" (some (-1)) sampleGroupResp =
       [Effect.alertBox m]) ∧
    (fetchesOf (legacyContributeClick sampleLegacyEnv "42" (some (-1)) sampleGroupResp) = [] ∧
     signsOf (legacyContributeClick sampleLegacyEnv "42" (some (-1)) sampleGroupResp) = [] ∧
     sendsOf (legacyContributeClick sampleLegacyEnv "42" (some (-1)) sampleGroupResp) = [] ∧
     legacyContributeClick sampleLegacyEnv "42" (some (-1)) sampleGroupResp =
       [Effect.alertBox "Enter an amount"]) ∧
    (fetchesOf (walletJsContributeClick sampleLegacyEnv "42" (some (-1)) sampleGroupResp) = [] ∧
     signsOf (walletJsContributeClick sampleLegacyEnv "42" (some (-1)) sampleGroupResp) = [] ∧
     sendsOf (walletJsContributeClick sampleLegacyEnv "42" (some (-1)) sampleGroupResp) = [] ∧
     walletJsContributeClick sampleLegacyEnv "42" (some (-1)) sampleGroupResp =
       [Effect.alertBox "Enter amount"]) :=
  bad_amount_no_request sampleEnv sampleLegacyEnv sampleLegacyEnv "42" (some (-1))
    sampleGroupResp (by decide)

/-- C7: in the contribute, claim, refund and deploy flows, every failed
build, sign or submit step surfaces its rejection reason — the response's
error field, else its raw body — in exactly one alert, with exactly the
fetch, sign and submit attempts already made and no repetition of any of
them. -/
theorem failure_surfaced_once_no_retry (env : SignerEnv) (pid addr : String)
    (amt : Option Rat) (resp fin : BuildResponse) (e : String) (signed : List Nat)
    (txId : String)
    (haddr : env.activeAddress = some addr)
    (hamt : badAmount amt = false)
    (he : e ≠ "") :
    (resp.ok = false →
      alertsOf (contributeClick env pid amt resp) =
        [alertOfError (jsOrS resp.errField (jsOrS resp.raw (buildFailedMsg resp.status)))] ∧
      fetchesOf (contributeClick env pid amt resp) = [contribUrl pid] ∧
      signsOf (contributeClick env pid amt resp) = [] ∧
      sendsOf (contributeClick env pid amt resp) = []) ∧
    (resp.errField ≠ "" →
      alertOfError (jsOrS resp.errField (jsOrS resp.raw (buildFailedMsg resp.status))) =
        resp.errField) ∧
    (resp.errField = "" → resp.raw ≠ "" →
      alertOfError (jsOrS resp.errField (jsOrS resp.raw (buildFailedMsg resp.status))) =
        resp.raw) ∧
    (resp.ok = true → env.sign (groupBytes env resp.group) = Except.error e →
      alertsOf (contributeClick env pid amt resp) = [e] ∧
      fetchesOf (contributeClick env pid amt resp) = [contribUrl pid] ∧
      signsOf (contributeClick env pid amt resp) = [groupBytes env resp.group] ∧
      sendsOf (contributeClick env pid amt resp) = []) ∧
    (resp.ok = true → env.sign (groupBytes env resp.group) = Except.ok signed →
      env.send signed = Except.error e →
      alertsOf (contributeClick env pid amt resp) = [e] ∧
      fetchesOf (contributeClick env pid amt resp) = [contribUrl pid] ∧
      sendsOf (contributeClick env pid amt resp) = [signed]) ∧
    (resp.ok = false →
      alertsOf (claimClick env pid resp) =
        [alertOfError (jsOrS resp.errField (jsOrS resp.raw (buildFailedMsg resp.status)))] ∧
      fetchesOf (claimClick env pid resp) = [claimUrl pid] ∧
      signsOf (claimClick env pid resp) = [] ∧
      sendsOf (claimClick env pid resp) = []) ∧
    (resp.ok = true → env.sign (groupBytes env [resp.txn]) = Except.error e →
      alertsOf (claimClick env pid resp) = [e] ∧
      fetchesOf (claimClick env pid resp) = [claimUrl pid] ∧
      signsOf (claimClick env pid resp) = [groupBytes env [resp.txn]] ∧
      sendsOf (claimClick env pid resp) = []) ∧
    (resp.ok = true → env.sign (groupBytes env [resp.txn]) = Except.ok signed →
      env.send signed = Except.error e →
      alertsOf (claimClick env pid resp) = [e] ∧
      fetchesOf (claimClick env pid resp) = [claimUrl pid] ∧
      sendsOf (claimClick env pid resp) = [signed]) ∧
    (resp.ok = false →
      alertsOf (refundClick env pid resp) =
        [alertOfError (jsOrS resp.errField (jsOrS resp.raw (buildFailedMsg resp.status)))] ∧
      fetchesOf (refundClick env pid resp) = [refundUrl pid] ∧
      signsOf (refundClick env pid resp) = [] ∧
      sendsOf (refundClick env pid resp) = []) ∧
    (resp.ok = true → env.sign (groupBytes env [resp.txn]) = Except.error e →
      alertsOf (refundClick env pid resp) = [e] ∧
      fetchesOf (refundClick env pid resp) = [refundUrl pid] ∧
      signsOf (refundClick env pid resp) = [groupBytes env [resp.txn]] ∧
      sendsOf (refundClick env pid resp) = []) ∧
    (resp.ok = true → env.sign (groupBytes env [resp.txn]) = Except.ok signed →
      env.send signed = Except.error e →
      alertsOf (refundClick env pid resp) = [e] ∧
      fetchesOf (refundClick env pid resp) = [refundUrl pid] ∧
      sendsOf (refundClick env pid resp) = [signed]) ∧
    (resp.ok = false →
      alertsOf (deployClick env pid resp fin) =
        [alertOfError
          (jsOrS resp.errField (jsOrS resp.raw (buildDeployFailedMsg resp.status)))] ∧
      fetchesOf (deployClick env pid resp fin) = [deployBuildUrl pid] ∧
      signsOf (deployClick env pid resp fin) = [] ∧
      sendsOf (deployClick env pid resp fin) = []) ∧
    (resp.ok = true → resp.group = [] →
      alertsOf (deployClick env pid resp fin) =
        [alertOfError (jsOrS resp.errField "No deploy group returned.")] ∧
      fetchesOf (deployClick env pid resp fin) = [deployBuildUrl pid] ∧
      signsOf (deployClick env pid resp fin) = [] ∧
      sendsOf (deployClick env pid resp fin) = []) ∧
    (resp.ok = true → resp.group.isEmpty = false →
      env.sign (groupBytes env resp.group) = Except.error e →
      alertsOf (deployClick env pid resp fin) = [e] ∧
      fetchesOf (deployClick env pid resp fin) = [deployBuildUrl pid] ∧
      signsOf (deployClick env pid resp fin) = [groupBytes env resp.group] ∧
      sendsOf (deployClick env pid resp fin) = []) ∧
    (resp.ok = true → resp.group.isEmpty = false →
      env.sign (groupBytes env resp.group) = Except.ok signed →
      env.send signed = Except.error e →
      alertsOf (deployClick env pid resp fin) = [e] ∧
      fetchesOf (deployClick env pid resp fin) = [deployBuildUrl pid] ∧
      sendsOf (deployClick env pid resp fin) = [signed]) ∧
    (resp.ok = true → resp.group.isEmpty = false →
      env.sign (groupBytes env resp.group) = Except.ok signed →
      env.send signed = Except.ok txId → fin.ok = false →
      alertsOf (deployClick env pid resp fin) =
        [alertOfError (jsOrS fin.errField (jsOrS fin.raw (finalizeFailedMsg fin.status)))] ∧
      fetchesOf (deployClick env pid resp fin) = [deployBuildUrl pid, deployFinalizeUrl pid] ∧
      signsOf (deployClick env pid resp fin) = [groupBytes env resp.group] ∧
      sendsOf (deployClick env pid resp fin) = [signed]) := by
  refine ⟨?_, ?_, ?_, ?_, ?_, ?_, ?_, ?_, ?_, ?_, ?_, ?_, ?_, ?_, ?_, ?_⟩
  · intro hok
    refine ⟨?_, ?_, ?_, ?_⟩ <;>
      simp [contributeClick, haddr, hamt, hok, alertsOf, fetchesOf, signsOf, sendsOf]
  · intro hne
    simp [alertOfError, jsOrS, hne]
  · intro hef hraw
    simp [alertOfError, jsOrS, hef, hraw]
  · intro hok hsign
    refine ⟨?_, ?_, ?_, ?_⟩ <;>
      simp [contributeClick, haddr, hamt, hok, signAndSendGroup, hsign,
        alertsOf, fetchesOf, signsOf, sendsOf, alertOfError, jsOrS, he]
  · intro hok hsign hsend
    refine ⟨?_, ?_, ?_⟩ <;>
      simp [contributeClick, haddr, hamt, hok, signAndSendGroup, hsign, hsend,
        alertsOf, fetchesOf, signsOf, sendsOf, alertOfError, jsOrS, he]
  · intro hok
    refine ⟨?_, ?_, ?_, ?_⟩ <;>
      simp [claimClick, haddr, hok, alertsOf, fetchesOf, signsOf, sendsOf]
  · intro hok hsign
    refine ⟨?_, ?_, ?_, ?_⟩ <;>
      simp [claimClick, haddr, hok, signAndSendSingle, signAndSendGroup, hsign,
        alertsOf, fetchesOf, signsOf, sendsOf, alertOfError, jsOrS, he]
  · intro hok hsign hsend
    refine ⟨?_, ?_, ?_⟩ <;>
      simp [claimClick, haddr, hok, signAndSendSingle, signAndSendGroup, hsign, hsend,
        alertsOf, fetchesOf, signsOf, sendsOf, alertOfError, jsOrS, he]
  · intro hok
    refine ⟨?_, ?_, ?_, ?_⟩ <;>
      simp [refundClick, haddr, hok, alertsOf, fetchesOf, signsOf, sendsOf]
  · intro hok hsign
    refine ⟨?_, ?_, ?_, ?_⟩ <;>
      simp [refundClick, haddr, hok, signAndSendSingle, signAndSendGroup, hsign,
        alertsOf, fetchesOf, signsOf, sendsOf, alertOfError, jsOrS, he]
  · intro hok hsign hsend
    refine ⟨?_, ?_, ?_⟩ <;>
      simp [refundClick, haddr, hok, signAndSendSingle, signAndSendGroup, hsign, hsend,
        alertsOf, fetchesOf, signsOf, sendsOf, alertOfError, jsOrS, he]
  · intro hok
    refine ⟨?_, ?_, ?_, ?_⟩ <;>
      simp [deployClick, haddr, hok, alertsOf, fetchesOf, signsOf, sendsOf]
  · intro hok hemp
    refine ⟨?_, ?_, ?_, ?_⟩ <;>
      simp [deployClick, haddr, hok, hemp, alertsOf, fetchesOf, signsOf, sendsOf]
  · intro hok hemp hsign
    refine ⟨?_, ?_, ?_, ?_⟩ <;>
      simp [deployClick, haddr, hok, hemp, signAndSendGroup, hsign,
        alertsOf, fetchesOf, signsOf, sendsOf, alertOfError, jsOrS, he]
  · intro hok hemp hsign hsend
    refine ⟨?_, ?_, ?_⟩ <;>
      simp [deployClick, haddr, hok, hemp, signAndSendGroup, hsign, hsend,
        alertsOf, fetchesOf, signsOf, sendsOf, alertOfError, jsOrS, he]
  · intro hok hemp hsign hsend hfin
    refine ⟨?_, ?_, ?_, ?_⟩ <;>
      simp [deployClick, haddr, hok, hemp, signAndSendGroup, hsign, hsend, hfin,
        alertsOf, fetchesOf, signsOf, sendsOf]

/-- A concrete failing build response for the C7 witness. -/
def sampleFailResp : BuildResponse :=
  { ok := false, status := 500, raw := "denied", errField := "wrong phase",
    group := [], txn := "", appId := 0 }

/-- C7 witness: a concrete failed contribute build surfaces one alert holding
the response's error field verbatim, after exactly one fetch and no sign or
submit attempt. -/
theorem failure_surfaced_once_no_retry_witness :
    (alertsOf (contributeClick sampleEnv "7" (some 2) sampleFailResp) =
      [alertOfError (jsOrS "wrong phase" (jsOrS "denied" (buildFailedMsg 500)))] ∧
     fetchesOf (contributeClick sampleEnv "7" (some 2) sampleFailResp) = [contribUrl "7"] ∧
     signsOf (contributeClick sampleEnv "7" (some 2) sampleFailResp) = [] ∧
     sendsOf (contributeClick sampleEnv "7" (some 2) sampleFailResp) = []) ∧
    alertOfError (jsOrS "wrong phase" (jsOrS "denied" (buildFailedMsg 500))) =
      "wrong phase" :=
  ⟨(failure_surfaced_once_no_retry sampleEnv "7" "ADDR" (some 2) sampleFailResp
      sampleFailResp "boom" [] "T" rfl (by decide) (by decide)).1 rfl,
   (failure_surfaced_once_no_retry sampleEnv "7" "ADDR" (some 2) sampleFailResp
      sampleFailResp "boom" [] "T" rfl (by decide) (by decide)).2.1 (by decide)⟩

end HyperdriveUi
